import Mathlib

/-!
Verification of the Active Workout Session Engine of the PersonalTrainer
repository: a shallow embedding of the session store (lifecycle, mutation
API, timers, commit protocol) and of the scoring utilities, with theorems
settling the specification claims about them.

Conventions of the embedding:
* JavaScript numbers are modelled as rationals (`ℚ`); integer counters as
  `ℕ` or `ℤ` where the source only adds/subtracts integers.
* `x?: T | null` fields become `Option` fields; `a ?? b` becomes
  `Option.getD` / `Option.orElse`.
* Client-side generated ids (`generateId()`) and wall-clock timestamps
  (`new Date().toISOString()`) are nondeterministic inputs, so the
  embedded operations take them as explicit parameters.
* The remote store (`supabase`) is modelled by an oracle giving the
  outcome of each write the source inspects, and the commit protocol
  returns the ordered list of write operations it issued.
-/

namespace PersonalTrainer

/-! ## Scoring utilities (src/utils/calculations.ts) -/

/-- Epley estimated one-rep max: `weight` when `reps == 1`,
otherwise `weight * (1 + reps / 30)`. -/
def estimate1RM (weight reps : ℚ) : ℚ :=
  if reps = 1 then weight else weight * (1 + reps / 30)

/-- Volume of a single set: `weight * reps`. -/
def setVolume (weight reps : ℚ) : ℚ := weight * reps

/-- One entry of a plate-calculator result: a plate denomination and how
many of that plate go on each side of the bar. -/
structure PlateCount where
  weight : ℚ
  count : ℤ
deriving DecidableEq, Repr

/-- Result of the plate calculator: per-side plate counts plus the
unrepresentable remainder. -/
structure PlateResult where
  perSide : List PlateCount
  remainder : ℚ
deriving DecidableEq, Repr

/-- The fixed descending list of standard plate denominations (kg). -/
def STANDARD_PLATES_KG : List ℚ := [25, 20, 15, 10, 5, 5/2, 5/4]

/-- JavaScript `Math.round`: round half away from zero upwards
(`Math.round x = ⌊x + 1/2⌋` for finite numbers). -/
def jsRound (q : ℚ) : ℤ := ⌊q + 1/2⌋

/-- JavaScript `Math.floor` on a quotient, as used by the plate loop. -/
def jsFloorDiv (a b : ℚ) : ℤ := ⌊a / b⌋

/-- `calculatePlates(totalKg, barWeightKg)`: greedily consume the standard
plate list, taking `Math.floor(remaining / plate)` of each denomination
when positive, and report the rounded remainder. -/
def calculatePlates (totalKg barWeightKg : ℚ) : PlateResult :=
  let start : ℚ := (totalKg - barWeightKg) / 2
  let step : ℚ × List PlateCount → ℚ → ℚ × List PlateCount := fun acc plate =>
    let count : ℤ := jsFloorDiv acc.1 plate
    if count > 0 then (acc.1 - count * plate, acc.2 ++ [⟨plate, count⟩])
    else acc
  let final := STANDARD_PLATES_KG.foldl step (start, [])
  { perSide := final.2, remainder := (jsRound (final.1 * 100) : ℚ) / 100 }

/-! ## Data model (src/types/index.ts) -/

/-- Set tag: `'warmup' | 'working' | 'failure' | 'drop' | 'normal'`. -/
inductive SetTag where
  | warmup | working | failure | drop | normal
deriving DecidableEq, Repr

/-- Set status: `'pending' | 'completed' | 'skipped'`. -/
inductive SetStatus where
  | pending | completed | skipped
deriving DecidableEq, Repr

/-- `WorkoutSet`: one set of a live session's exercise. -/
structure WorkoutSet where
  id : String
  exercise_id : Option String := none
  set_number : Option ℕ := none
  tag : SetTag
  target_weight : Option ℚ := none
  target_reps : Option ℚ := none
  actual_weight : Option ℚ := none
  actual_reps : Option ℚ := none
  rpe : Option ℚ := none
  status : SetStatus
deriving DecidableEq, Repr

/-- One set of the previous-session snapshot
(`previous.sets: Array<{weight?, reps?}>`). -/
structure PrevSet where
  weight : Option ℚ := none
  reps : Option ℚ := none
deriving DecidableEq, Repr

/-- The optional previous-performance snapshot attached to an exercise. -/
structure PrevPerformance where
  sets : Option (List PrevSet) := none
deriving DecidableEq, Repr

/-- `WorkoutExercise`: one exercise of a live session. -/
structure WorkoutExercise where
  id : String
  exercise_id : String
  notes : Option String := none
  order : Option ℕ := none
  sets : List WorkoutSet
  previous : Option PrevPerformance := none
deriving DecidableEq, Repr

/-- `PREvent`: a personal-record event recorded during the session. -/
structure PREvent where
  exercise_id : String
  set_id : String
  estimated_1rm : ℚ
deriving DecidableEq, Repr

/-- `ActiveWorkoutSession`: the one live workout. -/
structure ActiveWorkoutSession where
  id : String
  user_id : String
  name : String
  template_id : Option String := none
  started_at : String
  exercises : List WorkoutExercise
  pr_events : List PREvent := []
deriving DecidableEq, Repr

/-- Rest-timer state of the workout store. -/
structure RestTimer where
  isRunning : Bool
  remaining : ℤ
  total : ℤ
  exerciseId : Option String := none
deriving DecidableEq, Repr

/-- The in-memory workout store state
(`activeSession`, `elapsedSeconds`, `restTimer`, `isFinishing`). -/
structure WorkoutState where
  activeSession : Option ActiveWorkoutSession
  elapsedSeconds : ℕ
  restTimer : RestTimer
  isFinishing : Bool
deriving DecidableEq, Repr

/-! ## Template model (the parts `buildSessionFromTemplate` reads) -/

/-- `TemplateSet`: a planned set inside a template exercise. -/
structure TemplateSet where
  id : String
  set_number : Option ℕ := none
  target_reps : Option ℚ := none
  target_weight : Option ℚ := none
  tag : Option SetTag := none
deriving DecidableEq, Repr

/-- `TemplateExercise`: a planned exercise inside a template. -/
structure TemplateExercise where
  id : String
  exercise_id : String
  order : Option ℕ := none
  order_index : Option ℕ := none
  notes : Option String := none
  sets : List TemplateSet
deriving DecidableEq, Repr

/-- `Template`: a reusable workout plan. -/
structure Template where
  id : String
  user_id : String
  name : String
  exercises : List TemplateExercise
deriving DecidableEq, Repr

/-! ## Session lifecycle (src/stores/workoutStore.ts) -/

/-- `buildSessionFromTemplate(template, userId)`. The client-side ids
produced by `generateId()` are passed in: `sessionId` for the session,
`exId i` for the `i`-th exercise, `setId i j` for its `j`-th set; the
wall-clock `started_at` timestamp is the `startedAt` parameter. -/
def buildSessionFromTemplate (sessionId : String) (exId : ℕ → String)
    (setId : ℕ → ℕ → String) (startedAt : String)
    (template : Template) (userId : String) : ActiveWorkoutSession :=
  let exercises : List WorkoutExercise :=
    template.exercises.enum.map fun p =>
      let i := p.1
      let te := p.2
      { id := exId i
        exercise_id := te.exercise_id
        notes := te.notes
        order := some ((te.order.orElse fun _ => te.order_index).getD 0)
        sets := te.sets.enum.map fun q =>
          let idx := q.1
          let ts := q.2
          { id := setId i idx
            exercise_id := some te.exercise_id
            set_number := some (idx + 1)
            tag := ts.tag.getD SetTag.normal
            target_weight := ts.target_weight
            target_reps := ts.target_reps
            actual_weight := ts.target_weight
            actual_reps := ts.target_reps
            status := SetStatus.pending }
        previous := none }
  { id := sessionId
    user_id := userId
    name := template.name
    template_id := some template.id
    started_at := startedAt
    exercises := exercises
    pr_events := [] }

/-- `startFromTemplate(template, userId)`: builds the session and installs
it, resetting the elapsed clock. -/
def startFromTemplate (sessionId : String) (exId : ℕ → String)
    (setId : ℕ → ℕ → String) (startedAt : String)
    (template : Template) (userId : String) (st : WorkoutState) : WorkoutState :=
  let session := buildSessionFromTemplate sessionId exId setId startedAt template userId
  { st with activeSession := some session, elapsedSeconds := 0 }

/-- The session object built by `startEmpty(name, userId)`. -/
def emptySession (sessionId startedAt name userId : String) : ActiveWorkoutSession :=
  { id := sessionId
    user_id := userId
    name := name
    template_id := none
    started_at := startedAt
    exercises := []
    pr_events := [] }

/-- `startEmpty(name, userId)`: installs a fresh empty session,
resetting the elapsed clock. -/
def startEmpty (sessionId startedAt name userId : String)
    (st : WorkoutState) : WorkoutState :=
  { st with activeSession := some (emptySession sessionId startedAt name userId)
            elapsedSeconds := 0 }

/-- `discardWorkout()`: drop the session, reset clocks and rest timer. -/
def discardWorkout (st : WorkoutState) : WorkoutState :=
  { st with activeSession := none
            elapsedSeconds := 0
            restTimer := { isRunning := false, remaining := 0, total := 0 } }

/-! ## Mutation API -/

/-- `completeSet(exerciseId, setId)`: mark the matching set completed. -/
def completeSet (exerciseId setId : String) (st : WorkoutState) : WorkoutState :=
  match st.activeSession with
  | none => st
  | some sess =>
    { st with activeSession := some (
        { sess with exercises := sess.exercises.map fun ex =>
            if ex.id ≠ exerciseId then ex
            else { ex with sets := ex.sets.map fun ws =>
                if ws.id ≠ setId then ws
                else { ws with status := SetStatus.completed } } }) }

/-- A `Partial<WorkoutSet>` payload: an outer `none` means the key is
absent from the payload, an outer `some` carries the new value. -/
structure SetUpdates where
  id : Option String := none
  exercise_id : Option (Option String) := none
  set_number : Option (Option ℕ) := none
  tag : Option SetTag := none
  target_weight : Option (Option ℚ) := none
  target_reps : Option (Option ℚ) := none
  actual_weight : Option (Option ℚ) := none
  actual_reps : Option (Option ℚ) := none
  rpe : Option (Option ℚ) := none
  status : Option SetStatus := none
deriving DecidableEq, Repr

/-- The spread `{ ...ws, ...updates }`: every key present in the payload
overwrites the corresponding field of the set. -/
def applyUpdates (ws : WorkoutSet) (u : SetUpdates) : WorkoutSet :=
  { id := u.id.getD ws.id
    exercise_id := u.exercise_id.getD ws.exercise_id
    set_number := u.set_number.getD ws.set_number
    tag := u.tag.getD ws.tag
    target_weight := u.target_weight.getD ws.target_weight
    target_reps := u.target_reps.getD ws.target_reps
    actual_weight := u.actual_weight.getD ws.actual_weight
    actual_reps := u.actual_reps.getD ws.actual_reps
    rpe := u.rpe.getD ws.rpe
    status := u.status.getD ws.status }

/-- `updateSet(exerciseId, setId, updates)`: merge the payload into the
matching set. -/
def updateSet (exerciseId setId : String) (u : SetUpdates)
    (st : WorkoutState) : WorkoutState :=
  match st.activeSession with
  | none => st
  | some sess =>
    { st with activeSession := some (
        { sess with exercises := sess.exercises.map fun ex =>
            if ex.id ≠ exerciseId then ex
            else { ex with sets := ex.sets.map fun ws =>
                if ws.id ≠ setId then ws else applyUpdates ws u } }) }

/-- `removeSet(exerciseId, setId)`: delete the matching set. -/
def removeSet (exerciseId setId : String) (st : WorkoutState) : WorkoutState :=
  match st.activeSession with
  | none => st
  | some sess =>
    { st with activeSession := some (
        { sess with exercises := sess.exercises.map fun ex =>
            if ex.id ≠ exerciseId then ex
            else { ex with sets := ex.sets.filter fun ws => ws.id ≠ setId } }) }

/-! ## Timers -/

/-- `tickElapsed()`: the elapsed clock advances by one second. -/
def tickElapsed (st : WorkoutState) : WorkoutState :=
  { st with elapsedSeconds := st.elapsedSeconds + 1 }

/-- `startRestTimer(seconds, exerciseId?)`. -/
def startRestTimer (seconds : ℤ) (exerciseId : Option String)
    (st : WorkoutState) : WorkoutState :=
  { st with restTimer :=
      { isRunning := true, remaining := seconds, total := seconds
        exerciseId := exerciseId } }

/-- `stopRestTimer()`: forces the timer off, zeroing `remaining` and
`total` (the object literal carries no `exerciseId`, so it is dropped). -/
def stopRestTimer (st : WorkoutState) : WorkoutState :=
  { st with restTimer :=
      { isRunning := false, remaining := 0, total := 0, exerciseId := none } }

/-- `tickTimer()`: decrement `remaining`; on reaching (or passing) zero,
stop the timer keeping `total` and `exerciseId` as they were. -/
def tickTimer (st : WorkoutState) : WorkoutState :=
  let remaining := st.restTimer.remaining - 1
  if remaining ≤ 0 then
    { st with restTimer :=
        { st.restTimer with isRunning := false, remaining := 0 } }
  else
    { st with restTimer := { st.restTimer with remaining := remaining } }

/-! ## Commit protocol (`finishWorkout`) -/

/-- The row inserted into `workouts` (the session header). -/
structure WorkoutHeaderRecord where
  id : String
  user_id : String
  name : String
  template_id : Option String
  started_at : String
  finished_at : String
  duration_seconds : ℕ
  total_volume_kg : ℚ
deriving DecidableEq, Repr

/-- A row inserted into `workout_exercises`. -/
structure WorkoutExerciseRecord where
  id : String
  workout_id : String
  exercise_id : String
  notes : Option String
  order : ℕ
deriving DecidableEq, Repr

/-- A row inserted into `workout_sets`. -/
structure WorkoutSetRecord where
  id : String
  workout_exercise_id : String
  set_number : ℕ
  tag : SetTag
  actual_weight : Option ℚ
  actual_reps : Option ℚ
  rpe : Option ℚ
deriving DecidableEq, Repr

/-- One write issued to the remote store during the commit protocol. -/
inductive WriteOp where
  | insertWorkout (rec : WorkoutHeaderRecord)
  | insertWorkoutExercise (rec : WorkoutExerciseRecord)
  | insertWorkoutSets (recs : List WorkoutSetRecord)
  | updateTemplateLastUsed (templateId lastUsedAt : String)
deriving DecidableEq, Repr

/-- Outcomes of the writes whose results the source inspects: the header
insert (`wErr`) and each exercise-header insert (`exErr`, keyed by the
exercise's client id). The set-batch insert and the template update are
fire-and-forget in the source (their results are never read). -/
structure StoreOracle where
  headerOk : Bool
  exerciseOk : String → Bool

/-- `completedExercises`: exercises having at least one completed set. -/
def completedExercisesOf (sess : ActiveWorkoutSession) : List WorkoutExercise :=
  sess.exercises.filter fun ex =>
    ex.sets.any fun s => s.status = SetStatus.completed

/-- The completed sets of one exercise. -/
def completedSetsOf (ex : WorkoutExercise) : List WorkoutSet :=
  ex.sets.filter fun s => s.status = SetStatus.completed

/-- `totalVolumeKg` as computed by `finishWorkout`: a reduce over the
completed exercises of a reduce over their completed sets of
`(actual_weight ?? 0) * (actual_reps ?? 0)`. -/
def totalVolumeKgOf (sess : ActiveWorkoutSession) : ℚ :=
  (completedExercisesOf sess).foldl
    (fun sum ex =>
      sum + (completedSetsOf ex).foldl
        (fun s2 s => s2 + (s.actual_weight.getD 0) * (s.actual_reps.getD 0)) 0)
    0

/-- The header row `finishWorkout` inserts for a session. -/
def headerRecordOf (finishedAt : String) (elapsedSeconds : ℕ)
    (sess : ActiveWorkoutSession) : WorkoutHeaderRecord :=
  { id := sess.id
    user_id := sess.user_id
    name := sess.name
    template_id := sess.template_id
    started_at := sess.started_at
    finished_at := finishedAt
    duration_seconds := elapsedSeconds
    total_volume_kg := totalVolumeKgOf sess }

/-- The `workout_exercises` row inserted for one exercise. -/
def exerciseRecordOf (workoutId : String) (ex : WorkoutExercise) : WorkoutExerciseRecord :=
  { id := ex.id
    workout_id := workoutId
    exercise_id := ex.exercise_id
    notes := ex.notes
    order := ex.order.getD 0 }

/-- The `workout_sets` batch inserted for one exercise
(`set_number` falls back to the position, 1-based). -/
def setRecordsOf (workoutExerciseId : String) (ex : WorkoutExercise) : List WorkoutSetRecord :=
  (completedSetsOf ex).enum.map fun p =>
    { id := p.2.id
      workout_exercise_id := workoutExerciseId
      set_number := p.2.set_number.getD (p.1 + 1)
      tag := p.2.tag
      actual_weight := p.2.actual_weight
      actual_reps := p.2.actual_reps
      rpe := p.2.rpe }

/-- The writes issued for one completed exercise inside the loop: the
exercise-header insert, then — only when that insert succeeded and the
exercise has completed sets — the set batch. -/
def exerciseOps (workoutId : String) (oracle : StoreOracle)
    (ex : WorkoutExercise) : List WriteOp :=
  let headerOp := WriteOp.insertWorkoutExercise (exerciseRecordOf workoutId ex)
  if oracle.exerciseOk ex.id = false then [headerOp]
  else if (completedSetsOf ex).length > 0 then
    [headerOp, WriteOp.insertWorkoutSets (setRecordsOf ex.id ex)]
  else [headerOp]

/-- Result of a `finishWorkout` call: the store state after the call
returns, the ordered writes issued, and whether the call threw. -/
structure FinishResult where
  state : WorkoutState
  writes : List WriteOp
  threw : Bool
deriving Repr

/-- `finishWorkout()`. With no live session it returns at once. Otherwise
it raises `isFinishing`, computes the header and inserts it; a header
failure clears `isFinishing` and rethrows with nothing else written. On
success it loops over the completed exercises (skipping each failed
exercise header's set batch), fires the template `last_used_at` update,
and clears the session, clock and `isFinishing`. -/
def finishWorkout (finishedAt : String) (oracle : StoreOracle)
    (st : WorkoutState) : FinishResult :=
  match st.activeSession with
  | none => { state := st, writes := [], threw := false }
  | some sess =>
    let st1 := { st with isFinishing := true }
    let headerOp := WriteOp.insertWorkout (headerRecordOf finishedAt st.elapsedSeconds sess)
    if oracle.headerOk = false then
      { state := { st1 with isFinishing := false }
        writes := [headerOp]
        threw := true }
    else
      let exOps := ((completedExercisesOf sess).map (exerciseOps sess.id oracle)).flatten
      let templateOps := match sess.template_id with
        | some tid => [WriteOp.updateTemplateLastUsed tid finishedAt]
        | none => []
      { state := { st1 with activeSession := none
                            elapsedSeconds := 0
                            isFinishing := false }
        writes := [headerOp] ++ exOps ++ templateOps
        threw := false }

/-! ## PR evaluation (app/workout/session.tsx, ExerciseCard) -/

/-- JavaScript truthiness of an optional number: `null`/`undefined` and
`0` are falsy, every other number is truthy. -/
def truthyNum : Option ℚ → Bool
  | none => false
  | some v => v ≠ 0

/-- `current1rm`: `set.actual_weight && set.actual_reps
? estimate1RM(set.actual_weight, set.actual_reps) : 0`. -/
def current1rmOf (s : WorkoutSet) : ℚ :=
  if truthyNum s.actual_weight ∧ truthyNum s.actual_reps then
    estimate1RM (s.actual_weight.getD 0) (s.actual_reps.getD 0)
  else 0

/-- `prevSet = exercise.previous?.sets?.[idx]`. -/
def prevSetAt (ex : WorkoutExercise) (idx : ℕ) : Option PrevSet :=
  (ex.previous.bind fun p => p.sets).bind fun l => l.get? idx

/-- `prev1rm`: `prevSet?.weight && prevSet?.reps
? estimate1RM(prevSet.weight, prevSet.reps) : 0`. -/
def prev1rmOf (p : Option PrevSet) : ℚ :=
  match p with
  | none => 0
  | some ps =>
    if truthyNum ps.weight ∧ truthyNum ps.reps then
      estimate1RM (ps.weight.getD 0) (ps.reps.getD 0)
    else 0

/-- The PR flag the session screen passes to the row for the set at
position `idx`: `isPR && set.status === 'completed'` with
`isPR = current1rm > 0 && current1rm > prev1rm`. -/
def isPRFlag (ex : WorkoutExercise) (idx : ℕ) (s : WorkoutSet) : Bool :=
  let cur := current1rmOf s
  let prev := prev1rmOf (prevSetAt ex idx)
  (decide (cur > 0) && decide (cur > prev)) && decide (s.status = SetStatus.completed)

/-! ## Spec-side definitions (used only to compare against the code) -/

/-- The specification's reading of the previous estimate for a set
position: zero when the snapshot is absent, the positional set is absent,
or its weight or reps is missing; otherwise the Epley estimate. -/
def specPrevEstimate (p : Option PrevSet) : ℚ :=
  match p with
  | none => 0
  | some ps =>
    match ps.weight, ps.reps with
    | some w, some r => estimate1RM w r
    | _, _ => 0

/-- The specification's total volume: the sum, over every set with
status completed anywhere in the session, of
`actual_weight * actual_reps` with missing values taken as zero. -/
def specSessionVolume (sess : ActiveWorkoutSession) : ℚ :=
  (((sess.exercises.map fun ex => ex.sets).flatten.filter
      fun s => s.status = SetStatus.completed).map
    fun s => (s.actual_weight.getD 0) * (s.actual_reps.getD 0)).sum

/-! ## Concrete fixtures -/

/-- A completed 100 kg × 5 reps set. -/
def demoSet : WorkoutSet :=
  { id := "s1", exercise_id := some "cat1", set_number := some 1
    tag := SetTag.normal
    target_weight := some 100, target_reps := some 5
    actual_weight := some 100, actual_reps := some 5, rpe := none
    status := SetStatus.completed }

/-- An exercise holding the completed demo set, with no previous snapshot. -/
def demoExercise : WorkoutExercise :=
  { id := "e1", exercise_id := "cat1", notes := none, order := some 0
    sets := [demoSet], previous := none }

/-- A live session with one exercise and one completed set. -/
def demoSession : ActiveWorkoutSession :=
  { id := "w1", user_id := "u1", name := "Leg Day", template_id := none
    started_at := "2026-01-01T10:00:00Z"
    exercises := [demoExercise], pr_events := [] }

/-- An idle rest timer. -/
def demoTimer : RestTimer :=
  { isRunning := false, remaining := 0, total := 0, exerciseId := none }

/-- A store state with the demo session live. -/
def demoLiveState : WorkoutState :=
  { activeSession := some demoSession, elapsedSeconds := 1800
    restTimer := demoTimer, isFinishing := false }

/-- The store state mid-flight through a first `finishWorkout` call:
the session is still live (it is cleared only at the end) and
`isFinishing` has been raised. -/
def demoMidFinishState : WorkoutState :=
  { demoLiveState with isFinishing := true }

/-- A second completed set, for a second exercise. -/
def demoSet2 : WorkoutSet :=
  { demoSet with id := "s2", exercise_id := some "cat2" }

/-- A second exercise with one completed set. -/
def demoExercise2 : WorkoutExercise :=
  { id := "e2", exercise_id := "cat2", notes := none, order := some 1
    sets := [demoSet2], previous := none }

/-- A live session with two exercises, each with a completed set. -/
def demoSession2 : ActiveWorkoutSession :=
  { demoSession with id := "w2", exercises := [demoExercise, demoExercise2] }

/-- A store state with the two-exercise session live. -/
def demoLiveState2 : WorkoutState :=
  { activeSession := some demoSession2, elapsedSeconds := 2000
    restTimer := demoTimer, isFinishing := false }

/-- An oracle on which every write succeeds. -/
def allOkOracle : StoreOracle :=
  { headerOk := true, exerciseOk := fun _ => true }

/-- An oracle on which the header insert fails. -/
def headerFailOracle : StoreOracle :=
  { headerOk := false, exerciseOk := fun _ => true }

/-- An oracle on which the exercise-header insert for exercise `e1`
fails and everything else succeeds. -/
def exFailOracle : StoreOracle :=
  { headerOk := true, exerciseOk := fun i => !(i == "e1") }

/-- A state whose rest timer is one second from completion. -/
def demoRestState : WorkoutState :=
  { activeSession := none, elapsedSeconds := 0
    restTimer := { isRunning := true, remaining := 1, total := 90, exerciseId := some "e1" }
    isFinishing := false }

/-! ## Helper lemmas -/

/-- A left fold accumulating sums equals the starting value plus the sum
of the mapped list. -/
theorem foldl_add_eq_sum (g : α → ℚ) :
    ∀ (l : List α) (a : ℚ), l.foldl (fun acc x => acc + g x) a = a + (l.map g).sum := by
  intro l
  induction l with
  | nil => intro a; simp
  | cons x xs ih => intro a; simp [ih, add_assoc]

/-- `tickTimer` never changes the `total` field of the rest timer. -/
theorem tickTimer_preserves_total (st : WorkoutState) :
    (tickTimer st).restTimer.total = st.restTimer.total := by
  unfold tickTimer
  by_cases h : st.restTimer.remaining - 1 ≤ 0 <;> simp [h]

/-- Iterating `tickTimer` never changes the `total` field. -/
theorem iterate_tickTimer_preserves_total (n : ℕ) (st : WorkoutState) :
    (Nat.iterate tickTimer n st).restTimer.total = st.restTimer.total := by
  induction n generalizing st with
  | zero => rfl
  | succ k ih => rw [Function.iterate_succ_apply]; rw [ih, tickTimer_preserves_total]

/-- An exercise none of whose sets is completed has no completed sets. -/
theorem completedSetsOf_eq_nil (ex : WorkoutExercise)
    (h : ¬ (ex.sets.any fun s => s.status = SetStatus.completed) = true) :
    completedSetsOf ex = [] := by
  unfold completedSetsOf
  rw [List.filter_eq_nil]
  intro a ha hc
  exact h (List.any_eq_true.mpr ⟨a, ha, hc⟩)

/-- Dropping the exercises that have no completed set does not change a
sum that vanishes on them. -/
theorem sum_filter_completed (g : WorkoutExercise → ℚ)
    (hg : ∀ ex, completedSetsOf ex = [] → g ex = 0) :
    ∀ l : List WorkoutExercise,
      ((l.filter fun ex => ex.sets.any fun s => s.status = SetStatus.completed).map g).sum
        = (l.map g).sum := by
  intro l
  induction l with
  | nil => rfl
  | cons ex exs ih =>
    by_cases h : (ex.sets.any fun s => s.status = SetStatus.completed) = true
    · simp [h, ih]
    · have hnil := completedSetsOf_eq_nil ex h
      simp [h, ih, hg ex hnil]

/-- The specification's session volume, regrouped per exercise. -/
theorem specSessionVolume_eq_sum (sess : ActiveWorkoutSession) :
    specSessionVolume sess =
      (sess.exercises.map fun ex =>
        ((completedSetsOf ex).map fun s =>
          (s.actual_weight.getD 0) * (s.actual_reps.getD 0)).sum).sum := by
  unfold specSessionVolume
  induction sess.exercises with
  | nil => rfl
  | cons ex exs ih =>
    simp only [List.map_cons, List.flatten_cons, List.filter_append, List.map_append,
      List.sum_append, List.sum_cons, completedSetsOf]
    rw [ih]
    exact rfl

/-- The volume `finishWorkout` computes equals the specification's sum
over every completed set of the session. -/
theorem totalVolume_eq_spec (sess : ActiveWorkoutSession) :
    totalVolumeKgOf sess = specSessionVolume sess := by
  unfold totalVolumeKgOf completedExercisesOf
  rw [foldl_add_eq_sum, zero_add, specSessionVolume_eq_sum]
  rw [List.map_congr_left fun ex _ => by
    rw [foldl_add_eq_sum, zero_add]]
  exact sum_filter_completed _ (fun ex h => by rw [h]; rfl) sess.exercises

/-! ## Claim theorems -/

/-- C8: `estimate1RM` follows the Epley formula — it returns `weight`
when `reps == 1` and `weight * (1 + reps / 30)` otherwise — so for every
weight `w > 0` and integer reps `r > 1`, `estimate1RM w r > w`, while
`estimate1RM w 1 = w`. -/
theorem estimate1RM_epley :
    (∀ w : ℚ, estimate1RM w 1 = w) ∧
    (∀ w r : ℚ, r ≠ 1 → estimate1RM w r = w * (1 + r / 30)) ∧
    (∀ (w : ℚ) (r : ℕ), 0 < w → 1 < r → estimate1RM w (r : ℚ) > w) := by
  refine ⟨fun w => by simp [estimate1RM], fun w r hr => by simp [estimate1RM, hr], ?_⟩
  intro w r hw hr
  have hr1 : (r : ℚ) ≠ 1 := by
    exact_mod_cast Nat.ne_of_gt hr
  have hrQ : (1 : ℚ) < (r : ℚ) := by exact_mod_cast hr
  rw [estimate1RM, if_neg hr1]
  nlinarith

/-- Witness for C8 at `w = 100`, `r = 5`. -/
theorem estimate1RM_epley_witness :
    estimate1RM 100 1 = 100 ∧
    estimate1RM 100 5 = 100 * (1 + 5 / 30) ∧
    estimate1RM 100 ((5 : ℕ) : ℚ) > 100 :=
  ⟨estimate1RM_epley.1 100,
   estimate1RM_epley.2.1 100 5 (by norm_num),
   estimate1RM_epley.2.2 100 5 (by norm_num) (by norm_num)⟩

/-- C9 counterexample: `calculatePlates 100 20` does not produce the
per-side selection 20 + 15 + 5 stated by the claim. -/
theorem calculatePlates_100_20_not_claimed_selection :
    (calculatePlates 100 20).perSide ≠ [⟨20, 1⟩, ⟨15, 1⟩, ⟨5, 1⟩] := by
  norm_num [calculatePlates, STANDARD_PLATES_KG, List.foldl, jsFloorDiv]

/-- C9 (amended): `calculatePlates 100 20` with the standard plate list
greedily selects one 25 kg and one 15 kg plate per side (summing to the
per-side load `(100 - 20)/2 = 40`) with remainder 0. -/
theorem calculatePlates_100_20_greedy :
    calculatePlates 100 20 = { perSide := [⟨25, 1⟩, ⟨15, 1⟩], remainder := 0 } := by
  norm_num [calculatePlates, STANDARD_PLATES_KG, List.foldl, jsFloorDiv, jsRound]

/-- C10: a tick that brings the countdown to zero stops the timer while
keeping `total` and `exerciseId` at their pre-tick values, whereas
`stopRestTimer` zeroes `total`; hence a countdown started with a positive
`total` ends, through any number of ticks, in a rest-timer state distinct
from the one an explicit stop produces. -/
theorem tickTimer_zero_frame_vs_stop :
    (∀ st : WorkoutState, st.restTimer.remaining ≤ 1 →
      (tickTimer st).restTimer =
        { isRunning := false, remaining := 0
          total := st.restTimer.total, exerciseId := st.restTimer.exerciseId }) ∧
    (∀ st : WorkoutState, (stopRestTimer st).restTimer.total = 0) ∧
    (∀ (secs : ℤ) (exid : Option String) (st st' : WorkoutState) (n : ℕ),
      0 < secs →
      (Nat.iterate tickTimer n (startRestTimer secs exid st)).restTimer ≠
        (stopRestTimer st').restTimer) := by
  refine ⟨?_, fun st => rfl, ?_⟩
  · intro st h
    unfold tickTimer
    have h0 : st.restTimer.remaining - 1 ≤ 0 := by omega
    simp [h0]
  · intro secs exid st st' n hpos heq
    have htot := iterate_tickTimer_preserves_total n (startRestTimer secs exid st)
    rw [heq] at htot
    have : (0 : ℤ) = secs := htot
    omega

/-- Witness for C10 at a timer one second from completion and a
countdown of 3 seconds ticked 3 times. -/
theorem tickTimer_zero_frame_vs_stop_witness :
    (tickTimer demoRestState).restTimer =
      { isRunning := false, remaining := 0
        total := demoRestState.restTimer.total
        exerciseId := demoRestState.restTimer.exerciseId } ∧
    (stopRestTimer demoRestState).restTimer.total = 0 ∧
    (Nat.iterate tickTimer 3 (startRestTimer 3 none demoRestState)).restTimer ≠
      (stopRestTimer demoRestState).restTimer :=
  ⟨tickTimer_zero_frame_vs_stop.1 demoRestState (by decide),
   tickTimer_zero_frame_vs_stop.2.1 demoRestState,
   tickTimer_zero_frame_vs_stop.2.2 3 none demoRestState demoRestState 3 (by decide)⟩

/-- C4 counterexample: with the demo session live, `startEmpty` is not
rejected — it replaces the live session instead of leaving it unchanged. -/
theorem startEmpty_overwrites_live_session :
    demoLiveState.activeSession = some demoSession ∧
    (startEmpty "w9" "2026-01-02T10:00:00Z" "Push Day" "u1" demoLiveState).activeSession ≠
      some demoSession := by
  refine ⟨rfl, fun h => ?_⟩
  have hid : (emptySession "w9" "2026-01-02T10:00:00Z" "Push Day" "u1").id = demoSession.id := by
    have := Option.some.inj h
    rw [← this]
  simp [emptySession, demoSession] at hid

/-- C4 (amended): the start operations do not enforce the one-live-Session
invariant: in every state with a live session, `startEmpty` and
`startFromTemplate` install the newly built session (resetting the elapsed
clock) instead of rejecting the call, so the previous live session is
silently overwritten whenever the fresh id differs from its id. -/
theorem start_replaces_live_session
    (st : WorkoutState) (s : ActiveWorkoutSession)
    (sid startedAt nm userId : String) (exId : ℕ → String) (setId : ℕ → ℕ → String)
    (tpl : Template)
    (hlive : st.activeSession = some s) :
    (startEmpty sid startedAt nm userId st).activeSession =
      some (emptySession sid startedAt nm userId) ∧
    (startEmpty sid startedAt nm userId st).elapsedSeconds = 0 ∧
    (s.id ≠ sid →
      (startEmpty sid startedAt nm userId st).activeSession ≠ some s) ∧
    (startFromTemplate sid exId setId startedAt tpl userId st).activeSession =
      some (buildSessionFromTemplate sid exId setId startedAt tpl userId) ∧
    (startFromTemplate sid exId setId startedAt tpl userId st).elapsedSeconds = 0 ∧
    (s.id ≠ sid →
      (startFromTemplate sid exId setId startedAt tpl userId st).activeSession ≠ some s) := by
  refine ⟨rfl, rfl, fun hne h => ?_, rfl, rfl, fun hne h => ?_⟩
  · exact hne ((Option.some.inj h).symm ▸ rfl)
  · exact hne ((Option.some.inj h).symm ▸ rfl)

/-- Witness for C4 (amended) at the demo live state. -/
theorem start_replaces_live_session_witness :
    (startEmpty "w9" "t9" "Push Day" "u1" demoLiveState).activeSession =
      some (emptySession "w9" "t9" "Push Day" "u1") ∧
    (startEmpty "w9" "t9" "Push Day" "u1" demoLiveState).elapsedSeconds = 0 ∧
    (startEmpty "w9" "t9" "Push Day" "u1" demoLiveState).activeSession ≠ some demoSession := by
  have h := start_replaces_live_session demoLiveState demoSession "w9" "t9" "Push Day" "u1"
    (fun _ => "x") (fun _ _ => "y")
    { id := "tpl1", user_id := "u1", name := "T", exercises := [] } rfl
  exact ⟨h.1, h.2.1, h.2.2.1 (by simp [demoSession])⟩

/-- The payload used to mutate a completed set: new actual weight and a
status rollback to pending. -/
def demoUpdates : SetUpdates :=
  { actual_weight := some (some 999), status := some SetStatus.pending }

/-- C5 counterexample: the demo set is completed with actual weight 100,
yet `updateSet` changes its `actual_weight` to 999 and returns its status
to pending. -/
theorem updateSet_mutates_completed_set :
    demoSet.status = SetStatus.completed ∧
    demoSet.actual_weight = some 100 ∧
    ((updateSet "e1" "s1" demoUpdates demoLiveState).activeSession.map
        fun s => s.exercises.map fun ex => ex.sets.map fun ws => (ws.actual_weight, ws.status)) =
      some [[(some 999, SetStatus.pending)]] := by
  exact ⟨rfl, rfl, rfl⟩

/-- C5 (amended): the store does not protect completed sets: for every
completed set in the live session, `updateSet` with any partial payload
merges that payload into the set unconditionally — its `actual_*` fields
change and a status field in the payload returns it to pending — so the
session after the call contains the merged set; the one-way-completion
rule is enforced only by the UI, and `removeSet` remains the only undo
path there. -/
theorem updateSet_merges_regardless_of_status
    (st : WorkoutState) (sess : ActiveWorkoutSession) (ex : WorkoutExercise)
    (ws : WorkoutSet) (u : SetUpdates)
    (hlive : st.activeSession = some sess) (hex : ex ∈ sess.exercises)
    (hws : ws ∈ ex.sets) (hcomp : ws.status = SetStatus.completed) :
    ∃ sess' ex', (updateSet ex.id ws.id u st).activeSession = some sess' ∧
      ex' ∈ sess'.exercises ∧ applyUpdates ws u ∈ ex'.sets := by
  have hexid : ¬ ex.id ≠ ex.id := fun h => h rfl
  have hwsid : ¬ ws.id ≠ ws.id := fun h => h rfl
  refine ⟨{ sess with exercises := sess.exercises.map fun e =>
        if e.id ≠ ex.id then e
        else { e with sets := e.sets.map fun w =>
          if w.id ≠ ws.id then w else applyUpdates w u } },
      { ex with sets := ex.sets.map fun w =>
        if w.id ≠ ws.id then w else applyUpdates w u }, ?_, ?_, ?_⟩
  · unfold updateSet
    rw [hlive]
  · have := List.mem_map_of_mem (fun e =>
      if e.id ≠ ex.id then e
      else { e with sets := e.sets.map fun w =>
        if w.id ≠ ws.id then w else applyUpdates w u }) hex
    simpa [hexid] using this
  · have := List.mem_map_of_mem
      (fun w => if w.id ≠ ws.id then w else applyUpdates w u) hws
    simpa [hwsid] using this

/-- Witness for C5 (amended) at the demo state and payload. -/
theorem updateSet_merges_regardless_of_status_witness :
    ∃ sess' ex',
      (updateSet demoExercise.id demoSet.id demoUpdates demoLiveState).activeSession = some sess' ∧
      ex' ∈ sess'.exercises ∧ applyUpdates demoSet demoUpdates ∈ ex'.sets :=
  updateSet_merges_regardless_of_status demoLiveState demoSession demoExercise demoSet
    demoUpdates rfl (by simp [demoSession]) (by simp [demoExercise]) rfl

/-- C1: `finishWorkout` never consults `isFinishing` — from the mid-flight
state of a first finish (session still live, `isFinishing = true`), a
second `finishWorkout` call is not rejected: it runs a full second commit
sequence (header write, exercise-header write and set batch) instead of
performing no storage writes. -/
theorem finishWorkout_ignores_isFinishing_guard :
    demoMidFinishState.isFinishing = true ∧
    (finishWorkout "2026-01-01T11:00:00Z" allOkOracle demoMidFinishState).writes =
      [WriteOp.insertWorkout (headerRecordOf "2026-01-01T11:00:00Z" 1800 demoSession),
       WriteOp.insertWorkoutExercise (exerciseRecordOf "w1" demoExercise),
       WriteOp.insertWorkoutSets (setRecordsOf "e1" demoExercise)] ∧
    (finishWorkout "2026-01-01T11:00:00Z" allOkOracle demoMidFinishState).writes ≠ [] := by
  have hw : (finishWorkout "2026-01-01T11:00:00Z" allOkOracle demoMidFinishState).writes =
      [WriteOp.insertWorkout (headerRecordOf "2026-01-01T11:00:00Z" 1800 demoSession),
       WriteOp.insertWorkoutExercise (exerciseRecordOf "w1" demoExercise),
       WriteOp.insertWorkoutSets (setRecordsOf "e1" demoExercise)] := rfl
  refine ⟨rfl, hw, ?_⟩
  rw [hw]
  simp

/-- C2: when the header insert fails, the whole finish aborts atomically:
the only write attempted is the header insert itself, the session stays
live and unchanged, `isFinishing` is false when the call returns, and the
error is rethrown. -/
theorem finishWorkout_header_failure_aborts
    (st : WorkoutState) (sess : ActiveWorkoutSession) (o : StoreOracle) (fAt : String)
    (hlive : st.activeSession = some sess) (hfail : o.headerOk = false) :
    (finishWorkout fAt o st).state = { st with isFinishing := false } ∧
    (finishWorkout fAt o st).state.activeSession = some sess ∧
    (finishWorkout fAt o st).threw = true ∧
    (finishWorkout fAt o st).writes =
      [WriteOp.insertWorkout (headerRecordOf fAt st.elapsedSeconds sess)] := by
  obtain ⟨osess, el, rt, fin⟩ := st
  obtain rfl : osess = some sess := hlive
  simp only [finishWorkout, hfail]
  exact ⟨rfl, rfl, rfl, rfl⟩

/-- Witness for C2 at the demo state with a header-failing oracle. -/
theorem finishWorkout_header_failure_aborts_witness :
    (finishWorkout "t" headerFailOracle demoLiveState).state =
      { demoLiveState with isFinishing := false } ∧
    (finishWorkout "t" headerFailOracle demoLiveState).state.activeSession = some demoSession ∧
    (finishWorkout "t" headerFailOracle demoLiveState).threw = true ∧
    (finishWorkout "t" headerFailOracle demoLiveState).writes =
      [WriteOp.insertWorkout (headerRecordOf "t" 1800 demoSession)] :=
  finishWorkout_header_failure_aborts demoLiveState demoSession headerFailOracle "t" rfl rfl

/-- C6: the first write `finishWorkout` issues is the header insert, and
the volume it carries — computed by the source as a reduce over the
exercises having a completed set — equals the specification's sum over
every completed set in the session of `actual_weight * actual_reps` with
missing values taken as zero. -/
theorem finishWorkout_header_volume
    (st : WorkoutState) (sess : ActiveWorkoutSession) (o : StoreOracle) (fAt : String)
    (hlive : st.activeSession = some sess) :
    totalVolumeKgOf sess = specSessionVolume sess ∧
    (finishWorkout fAt o st).writes.head? =
      some (WriteOp.insertWorkout (headerRecordOf fAt st.elapsedSeconds sess)) ∧
    (headerRecordOf fAt st.elapsedSeconds sess).total_volume_kg = specSessionVolume sess := by
  have hvol : totalVolumeKgOf sess = specSessionVolume sess := totalVolume_eq_spec sess
  refine ⟨hvol, ?_, hvol⟩
  simp only [finishWorkout, hlive]
  by_cases h : o.headerOk = false <;> simp [h]

/-- Witness for C6 at the demo session: one completed set of 100 kg × 5
reps gives a persisted header volume of 500. -/
theorem finishWorkout_header_volume_witness :
    totalVolumeKgOf demoSession = specSessionVolume demoSession ∧
    (finishWorkout "t" allOkOracle demoLiveState).writes.head? =
      some (WriteOp.insertWorkout (headerRecordOf "t" demoLiveState.elapsedSeconds demoSession)) ∧
    (headerRecordOf "t" demoLiveState.elapsedSeconds demoSession).total_volume_kg = 500 := by
  have h := finishWorkout_header_volume demoLiveState demoSession allOkOracle "t" rfl
  refine ⟨h.1, h.2.1, ?_⟩
  have h500 : specSessionVolume demoSession = 500 := by
    norm_num [specSessionVolume, demoSession, demoExercise, demoSet]
  rw [h.2.2, h500]

/-- Every record of an exercise's set batch carries that exercise's id
as its `workout_exercise_id`. -/
theorem mem_setRecordsOf_wid (wid : String) (ex : WorkoutExercise)
    (rec : WorkoutSetRecord) (h : rec ∈ setRecordsOf wid ex) :
    rec.workout_exercise_id = wid := by
  unfold setRecordsOf at h
  rw [List.mem_map] at h
  obtain ⟨p, _, hp⟩ := h
  rw [← hp]

/-- The loop always issues the exercise-header insert for an exercise. -/
theorem exerciseOps_header_mem (wid : String) (o : StoreOracle) (ex : WorkoutExercise) :
    WriteOp.insertWorkoutExercise (exerciseRecordOf wid ex) ∈ exerciseOps wid o ex := by
  unfold exerciseOps
  by_cases h1 : o.exerciseOk ex.id = false
  · simp [h1]
  · by_cases h2 : (completedSetsOf ex).length > 0 <;> simp [h1, h2]

/-- A set batch only appears among an exercise's writes when that
exercise's header insert succeeded, and it is that exercise's batch. -/
theorem mem_exerciseOps_sets (wid : String) (o : StoreOracle) (ex : WorkoutExercise)
    (recs : List WorkoutSetRecord)
    (h : WriteOp.insertWorkoutSets recs ∈ exerciseOps wid o ex) :
    o.exerciseOk ex.id = true ∧ recs = setRecordsOf ex.id ex := by
  unfold exerciseOps at h
  by_cases h1 : o.exerciseOk ex.id = false
  · rw [if_pos h1] at h
    simp at h
  · have h1' : o.exerciseOk ex.id = true := by
      cases hb : o.exerciseOk ex.id
      · exact absurd hb h1
      · rfl
    rw [if_neg h1] at h
    by_cases h2 : (completedSetsOf ex).length > 0
    · rw [if_pos h2] at h
      simp at h
      exact ⟨h1', h⟩
    · rw [if_neg h2] at h
      simp at h

/-- C3: under a successful header write, an exercise whose
exercise-header insert fails has no set batch written (no batch in the
issued writes references it), while the loop still attempts the header
insert of every completed exercise and the finish completes: nothing is
rethrown and the live session is cleared. -/
theorem finishWorkout_exercise_failure_absorbed
    (st : WorkoutState) (sess : ActiveWorkoutSession) (o : StoreOracle) (fAt : String)
    (hlive : st.activeSession = some sess) (hok : o.headerOk = true) :
    (finishWorkout fAt o st).threw = false ∧
    (finishWorkout fAt o st).state.activeSession = none ∧
    (finishWorkout fAt o st).state.isFinishing = false ∧
    (∀ ex ∈ completedExercisesOf sess,
      WriteOp.insertWorkoutExercise (exerciseRecordOf sess.id ex) ∈
        (finishWorkout fAt o st).writes) ∧
    (∀ ex ∈ completedExercisesOf sess, o.exerciseOk ex.id = false →
      ∀ recs, WriteOp.insertWorkoutSets recs ∈ (finishWorkout fAt o st).writes →
        ∀ rec ∈ recs, rec.workout_exercise_id ≠ ex.id) := by
  obtain ⟨osess, el, rt, fin⟩ := st
  obtain rfl : osess = some sess := hlive
  have hok' : ¬ o.headerOk = false := by rw [hok]; exact fun h => nomatch h
  simp only [finishWorkout, if_neg hok']
  refine ⟨trivial, trivial, trivial, ?_, ?_⟩
  · intro ex hex
    apply List.mem_append_left
    apply List.mem_append_right
    rw [List.mem_flatten]
    exact ⟨exerciseOps sess.id o ex, List.mem_map_of_mem _ hex,
      exerciseOps_header_mem _ _ _⟩
  · intro ex hex hexfail recs hrecs rec hrec heq
    rcases List.mem_append.mp hrecs with hin | hin
    · rcases List.mem_append.mp hin with hin2 | hin2
      · simp at hin2
      · rw [List.mem_flatten] at hin2
        obtain ⟨l, hl, hmem⟩ := hin2
        rw [List.mem_map] at hl
        obtain ⟨e, he, rfl⟩ := hl
        obtain ⟨heok, rfl⟩ := mem_exerciseOps_sets _ _ _ _ hmem
        have hwid := mem_setRecordsOf_wid e.id e rec hrec
        rw [hwid] at heq
        rw [heq] at heok
        rw [heok] at hexfail
        exact nomatch hexfail
    · cases htid : sess.template_id with
      | none => rw [htid] at hin; simp at hin
      | some tid => rw [htid] at hin; simp at hin

/-- Witness for C3: two-exercise session, the first exercise's header
insert fails — the finish still succeeds, both exercise headers are
attempted, and no batch references the failed exercise. -/
theorem finishWorkout_exercise_failure_absorbed_witness :
    (finishWorkout "t" exFailOracle demoLiveState2).threw = false ∧
    (finishWorkout "t" exFailOracle demoLiveState2).state.activeSession = none ∧
    (finishWorkout "t" exFailOracle demoLiveState2).state.isFinishing = false ∧
    WriteOp.insertWorkoutExercise (exerciseRecordOf demoSession2.id demoExercise) ∈
      (finishWorkout "t" exFailOracle demoLiveState2).writes ∧
    WriteOp.insertWorkoutExercise (exerciseRecordOf demoSession2.id demoExercise2) ∈
      (finishWorkout "t" exFailOracle demoLiveState2).writes := by
  have h := finishWorkout_exercise_failure_absorbed demoLiveState2 demoSession2
    exFailOracle "t" rfl rfl
  refine ⟨h.1, h.2.1, h.2.2.1, ?_, ?_⟩
  · exact h.2.2.2.1 demoExercise (by simp [completedExercisesOf, demoSession2,
      demoExercise, demoSet])
  · exact h.2.2.2.1 demoExercise2 (by simp [completedExercisesOf, demoSession2,
      demoExercise, demoExercise2, demoSet, demoSet2])

/-- A completed set with entered weight 100 and reps 0 (a value the UI
can store, since the reps field parses free-form numeric input). -/
def demoZeroRepsSet : WorkoutSet :=
  { id := "s4", exercise_id := some "cat1", set_number := some 1
    tag := SetTag.normal
    target_weight := some 100, target_reps := some 5
    actual_weight := some 100, actual_reps := some 0, rpe := none
    status := SetStatus.completed }

/-- An exercise holding that set, with no previous snapshot. -/
def demoZeroRepsExercise : WorkoutExercise :=
  { id := "e4", exercise_id := "cat1", notes := none, order := some 0
    sets := [demoZeroRepsSet], previous := none }

/-- C7 counterexample: a completed set with entered weight 100 and reps 0
meets the claim's criterion — its Epley estimate is `estimate1RM 100 0 =
100 > 0` and, the snapshot being absent, the previous estimate is 0 — yet
the screen's truthiness check (`set.actual_weight && set.actual_reps`)
computes a current estimate of 0 and flags no PR. -/
theorem isPRFlag_truthiness_counterexample :
    demoZeroRepsSet.status = SetStatus.completed ∧
    demoZeroRepsSet.actual_weight = some 100 ∧
    demoZeroRepsSet.actual_reps = some 0 ∧
    0 < estimate1RM 100 0 ∧
    specPrevEstimate (prevSetAt demoZeroRepsExercise 0) < estimate1RM 100 0 ∧
    isPRFlag demoZeroRepsExercise 0 demoZeroRepsSet = false := by
  have h100 : estimate1RM 100 0 = 100 := by norm_num [estimate1RM]
  have hprev : specPrevEstimate (prevSetAt demoZeroRepsExercise 0) = 0 := rfl
  refine ⟨rfl, rfl, rfl, ?_, ?_, ?_⟩
  · rw [h100]; norm_num
  · rw [h100, hprev]; norm_num
  · simp [isPRFlag, current1rmOf, truthyNum, demoZeroRepsSet, demoZeroRepsExercise]

/-- The amended specification's estimate of an optional weight/reps pair:
zero when either value is missing or zero, otherwise the Epley
estimate. -/
def specEstimate (weight reps : Option ℚ) : ℚ :=
  match weight, reps with
  | some w, some r => if w = 0 ∨ r = 0 then 0 else estimate1RM w r
  | _, _ => 0

/-- The amended specification's previous estimate at a set position: zero
when the snapshot or the positional set is absent, else the estimate of
its weight/reps with missing-or-zero as zero. -/
def specPrevEstimateZero (p : Option PrevSet) : ℚ :=
  match p with
  | none => 0
  | some ps => specEstimate ps.weight ps.reps

/-- The screen's truthiness-guarded Epley computation agrees with the
missing-or-zero estimate on every input. -/
theorem truthy_estimate_eq_spec (ow oreps : Option ℚ) :
    (if truthyNum ow ∧ truthyNum oreps
      then estimate1RM (ow.getD 0) (oreps.getD 0) else 0) = specEstimate ow oreps := by
  cases ow with
  | none => simp [truthyNum, specEstimate]
  | some w =>
    cases oreps with
    | none => simp [truthyNum, specEstimate]
    | some r =>
      by_cases hw0 : w = 0
      · simp [truthyNum, specEstimate, hw0]
      · by_cases hr0 : r = 0
        · simp [truthyNum, specEstimate, hw0, hr0]
        · simp [truthyNum, specEstimate, hw0, hr0]

/-- C7 (amended): for every set and snapshot position, the screen flags a
PR exactly when the set is completed, its current estimate — zero when
the entered actual weight or reps is missing or zero, else the Epley
estimate — is strictly greater than zero and strictly greater than the
previous estimate computed the same way from the positionally-
corresponding previous set (an absent snapshot or absent set giving
zero); in particular any positive current estimate with no history counts
as a PR. -/
theorem isPRFlag_iff_missing_or_zero (ex : WorkoutExercise) (idx : ℕ) (s : WorkoutSet) :
    isPRFlag ex idx s = true ↔
      (s.status = SetStatus.completed ∧
        0 < specEstimate s.actual_weight s.actual_reps ∧
        specPrevEstimateZero (prevSetAt ex idx) <
          specEstimate s.actual_weight s.actual_reps) := by
  have hcur : current1rmOf s = specEstimate s.actual_weight s.actual_reps :=
    truthy_estimate_eq_spec s.actual_weight s.actual_reps
  have hprev : prev1rmOf (prevSetAt ex idx) = specPrevEstimateZero (prevSetAt ex idx) := by
    cases p : prevSetAt ex idx with
    | none => rfl
    | some ps => exact truthy_estimate_eq_spec ps.weight ps.reps
  unfold isPRFlag
  rw [hcur, hprev]
  simp only [Bool.and_eq_true, decide_eq_true_eq]
  constructor
  · rintro ⟨⟨h1, h2⟩, h3⟩
    exact ⟨h3, h1, h2⟩
  · rintro ⟨h3, h1, h2⟩
    exact ⟨⟨h1, h2⟩, h3⟩

end PersonalTrainer
